import Mathlib

/-!
Verification development for the ntdsforensics repository.

The definitions below are a shallow embedding of the Rust sources:

* `Value` mirrors the `libesedb::Value` cell variants the code matches on
  (`src/dbrecord.rs`, `src/win32_types/timestamp/mod.rs`).
* `RResult` models the outcome of a fallible Rust function: `ok`, a typed
  `error` (propagated with `?`), or a `panic` (from `expect`/`unwrap`/
  `panic!`-style macros and from checked integer arithmetic).
* The `*_getter` functions embed the getter macros of `src/dbrecord.rs`
  (`define_i32_getter`, `define_str_getter`, `define_sid_getter`,
  `define_datetime_getter`).
* `get_schema_record_id`, `find_type_records_ext`, `show_users` embed
  `src/data_table_ext.rs`; `find_type_records`, `show_typed_objects_*` and
  the timeline union embed `src/ntds/data_table.rs`.

Machine integers are modelled as `Nat`/`Int`; bytes in a binary cell are
`Nat` values below 256; checked `u8` subtraction models Rust's overflow
check (an underflow is a panic, not a value).
-/

/-- The error taxonomy of `src/ntds/error.rs` (the `uuid`/`sddl` wrappers
are omitted; the legacy `anyhow` errors of `src/dbrecord.rs` carry the
same "invalid value detected" message and are mapped to
`invalidValueDetected`). -/
inductive NtdsError where
  | valueIsMissing
  | invalidValueDetected (field : String)
  | integerConversionError
  | miscConversionError
  | missingSchemaRecord
  | schemaRecordHasNoChildren
  | ioError
  deriving DecidableEq, Repr

/-- Outcome of a fallible Rust computation: a value, a propagated error, or
a process panic. -/
inductive RResult (α : Type) where
  | ok (value : α)
  | error (e : NtdsError)
  | panic (msg : String)
  deriving DecidableEq, Repr

def RResult.map {α β : Type} (f : α → β) : RResult α → RResult β
  | .ok a => .ok (f a)
  | .error e => .error e
  | .panic m => .panic m

def RResult.isOk {α : Type} : RResult α → Bool
  | .ok _ => true
  | _ => false

/-- True exactly on `ok (some _)`: the shape the various `expect` calls in
`src/data_table_ext.rs` demand of a successfully read optional cell. -/
def is_ok_some {α : Type} : RResult (Option α) → Bool
  | .ok (some _) => true
  | _ => false

/-- The `libesedb::Value` variants matched by the getters; `binary` holds
the raw bytes as `Nat` values below 256. -/
inductive Value where
  | null
  | bool (b : Bool)
  | i32 (n : Int)
  | i64 (n : Int)
  | currency (n : Int)
  | text (s : String)
  | largeText (s : String)
  | binary (bytes : List Nat)
  | largeBinary (bytes : List Nat)
  deriving DecidableEq, Repr

/-! ## Byte-cursor primitives (`std::io::Cursor` + `byteorder` reads) -/

/-- Embeds `Cursor::read_u8`: consume one byte; `none` is the io error a read past
the end produces. -/
def read_u8 : List Nat → Option (Nat × List Nat)
  | [] => none
  | b :: rest => some (b, rest)

/-- Consume exactly `k` bytes. -/
def readN : Nat → List Nat → Option (List Nat × List Nat)
  | 0, l => some ([], l)
  | _ + 1, [] => none
  | k + 1, b :: rest => (readN k rest).map (fun p => (b :: p.1, p.2))

/-- Big-endian value of a byte list (first byte most significant). -/
def be_val (bytes : List Nat) : Nat := bytes.foldl (fun acc b => acc * 256 + b) 0

/-- Little-endian value of a byte list (first byte least significant). -/
def le_val (bytes : List Nat) : Nat := bytes.foldr (fun b acc => acc * 256 + b) 0

/-- Embeds `read_u48::<BigEndian>`. -/
def read_u48_be (l : List Nat) : Option (Nat × List Nat) :=
  (readN 6 l).map (fun p => (be_val p.1, p.2))

/-- Embeds `read_u32::<LittleEndian>`. -/
def read_u32_le (l : List Nat) : Option (Nat × List Nat) :=
  (readN 4 l).map (fun p => (le_val p.1, p.2))

/-- Embeds `read_u32::<BigEndian>`. -/
def read_u32_be (l : List Nat) : Option (Nat × List Nat) :=
  (readN 4 l).map (fun p => (be_val p.1, p.2))

/-- Checked `u8` subtraction: Rust's `number_of_dashes - 1` is an overflow
panic when the subtrahend exceeds the minuend (`none` models the panic). -/
def u8_sub (a b : Nat) : Option Nat :=
  if b ≤ a then some (a - b) else none

/-- The loop `for _i in 0..number_of_dashes-1 { numbers.push(read_u32::<LittleEndian>) }`
of `define_sid_getter`. -/
def read_subauths_le : Nat → List Nat → Option (List Nat × List Nat)
  | 0, l => some ([], l)
  | k + 1, l =>
    match read_u32_le l with
    | none => none
    | some (n, rest) => (read_subauths_le k rest).map (fun p => (n :: p.1, p.2))

/-- Embeds `format!("S-{revision}-{authority}-{numbers}")` where `numbers` joins
the decoded sub-authorities with `-` (`src/dbrecord.rs:77-81`). -/
def sid_format (revision authority : Nat) (numbers : List Nat) : String :=
  "S-" ++ toString revision ++ "-" ++ toString authority ++ "-"
    ++ String.intercalate "-" (numbers.map toString)

/-- Body of `define_sid_getter` on the raw bytes of a binary cell
(`src/dbrecord.rs:62-82`): revision byte, sub-authority count byte,
48-bit big-endian authority, then `count - 1` little-endian 32-bit
sub-authorities followed by one big-endian 32-bit sub-authority. -/
def sid_decode (val : List Nat) : RResult String :=
  match read_u8 val with
  | none => .error .ioError
  | some (revision, r1) =>
    match read_u8 r1 with
    | none => .error .ioError
    | some (number_of_dashes, r2) =>
      match read_u48_be r2 with
      | none => .error .ioError
      | some (authority, r3) =>
        match u8_sub number_of_dashes 1 with
        | none => .panic "attempt to subtract with overflow"
        | some k =>
          match read_subauths_le k r3 with
          | none => .error .ioError
          | some (numbers, r4) =>
            match read_u32_be r4 with
            | none => .error .ioError
            | some (last, _) =>
              .ok (sid_format revision authority (numbers ++ [last]))

/-- Embeds `define_sid_getter`: dispatch on the cell variant
(`src/dbrecord.rs:56-88`). -/
def sid_getter (field : String) (v : Value) : RResult (Option String) :=
  match v with
  | .binary val => (sid_decode val).map some
  | .largeBinary val => (sid_decode val).map some
  | .null => .ok none
  | _ => .error (.invalidValueDetected field)

/-! ## Calendar arithmetic for `chrono::DateTime<Utc>`

A `DateTime<Utc>` is modelled as the count of microseconds relative to
1970-01-01T00:00:00Z; `days_from_civil`/`civil_from_days` are the standard
era-based conversions between a proleptic Gregorian civil date and a day
number, matching what `NaiveDate::from_ymd` denotes. -/

/-- Day number (days since 1970-01-01) of the civil date `y-m-d`. -/
def days_from_civil (y m d : Int) : Int :=
  let y' := if m ≤ 2 then y - 1 else y
  let era := (if 0 ≤ y' then y' else y' - 399).tdiv 400
  let yoe := y' - era * 400
  let doy := (153 * (m + (if 2 < m then -3 else 9)) + 2).tdiv 5 + d - 1
  let doe := yoe * 365 + yoe.tdiv 4 - yoe.tdiv 100 + doy
  era * 146097 + doe - 719468

/-- Civil date `(y, m, d)` of a day number (days since 1970-01-01). -/
def civil_from_days (z : Int) : Int × Int × Int :=
  let z' := z + 719468
  let era := (if 0 ≤ z' then z' else z' - 146096).tdiv 146097
  let doe := z' - era * 146097
  let yoe := (doe - doe.tdiv 1460 + doe.tdiv 36524 - doe.tdiv 146096).tdiv 365
  let y := yoe + era * 400
  let doy := doe - (365 * yoe + yoe.tdiv 4 - yoe.tdiv 100)
  let mp := (5 * doy + 2).tdiv 153
  let d := doy - (153 * mp + 2).tdiv 5 + 1
  let m := mp + (if mp < 10 then 3 else -9)
  (if m ≤ 2 then y + 1 else y, m, d)

/-- A decoded instant split into calendar fields, for stating what a
microsecond count "reads as". -/
structure CivilDateTime where
  year : Int
  month : Int
  day : Int
  hour : Int
  minute : Int
  second : Int
  micro : Int
  deriving DecidableEq, Repr

/-- Calendar reading of a microsecond count since 1970-01-01T00:00:00Z. -/
def civil_from_micros (t : Int) : CivilDateTime :=
  let dayLen : Int := 86400000000
  let days := t.fdiv dayLen
  let rem := t - days * dayLen
  let ymd := civil_from_days days
  { year := ymd.1, month := ymd.2.1, day := ymd.2.2,
    hour := rem.tdiv 3600000000,
    minute := (rem.tdiv 60000000).tmod 60,
    second := (rem.tdiv 1000000).tmod 60,
    micro := rem.tmod 1000000 }

/-- Embeds `DateTime::<Utc>::from_utc(NaiveDate::from_ymd(1601, 1, 1).and_hms(0, 0, 0), Utc)`:
the Windows epoch used by `define_datetime_getter` (`src/dbrecord.rs:94`)
and by `BASE_DATETIME` (`src/win32_types/timestamp/mod.rs:14-22`). -/
def dt_base : Int := days_from_civil 1601 1 1 * 86400000000

/-- Smallest instant `chrono` can represent (year -262144). -/
def chrono_min_micros : Int := days_from_civil (-262144) 1 1 * 86400000000

/-- Largest instant `chrono` can represent (year 262143, last microsecond). -/
def chrono_max_micros : Int :=
  days_from_civil 262143 12 31 * 86400000000 + 86399999999

/-- Embeds `DateTime<Utc> + Duration`: chrono's checked addition, which panics
(`none`) when the sum leaves the representable range. -/
def chrono_add (dt micros : Int) : Option Int :=
  let r := dt + micros
  if chrono_min_micros ≤ r ∧ r ≤ chrono_max_micros then some r else none

/-- Embeds `define_datetime_getter` (`src/dbrecord.rs:90-107`): a `Currency` cell
holds a 64-bit tick count; the decoded instant is
`dt_base + Duration::microseconds(val / 10)` (Rust `/` on `i64` truncates
toward zero, hence `Int.tdiv`). -/
def datetime_getter (field : String) (v : Value) : RResult (Option Int) :=
  match v with
  | .currency val =>
    match chrono_add dt_base (Int.tdiv val 10) with
    | some dt => .ok (some dt)
    | none => .panic "invalid DateTime plus Duration"
  | .null => .ok none
  | _ => .error (.invalidValueDetected field)

/-! ## Records and typed getters (`src/dbrecord.rs`) -/

/-- A data-table row, modelled as the cells the claims touch, keyed by the
columns `ColumnInfoMapping` resolves for them (`DNT_col`, `PDNT_col`,
`ATTb590606`, `ATTm589825`, `ATTr589970`, `ATTq589876`). Reading a cell of
an open row never fails in this model; the embedded getters still produce
every error the Rust getters can produce from a cell value. -/
structure DbRecord where
  record_id : Value
  parent_record_id : Value
  object_type_id : Value
  object_name2 : Value
  sid : Value
  last_logon : Value
  deriving DecidableEq, Repr

/-- Embeds `define_i32_getter` (`src/dbrecord.rs:9-21`). -/
def i32_getter (field : String) (v : Value) : RResult (Option Int) :=
  match v with
  | .i32 val => .ok (some val)
  | .null => .ok none
  | _ => .error (.invalidValueDetected field)

/-- Embeds `define_str_getter` (`src/dbrecord.rs:23-36`). -/
def str_getter (field : String) (v : Value) : RResult (Option String) :=
  match v with
  | .text val => .ok (some val)
  | .largeText val => .ok (some val)
  | .null => .ok none
  | _ => .error (.invalidValueDetected field)

def ds_record_id_index (r : DbRecord) : RResult (Option Int) :=
  i32_getter "ds_record_id_index" r.record_id

def ds_parent_record_id_index (r : DbRecord) : RResult (Option Int) :=
  i32_getter "ds_parent_record_id_index" r.parent_record_id

def ds_object_type_id_index (r : DbRecord) : RResult (Option Int) :=
  i32_getter "ds_object_type_id_index" r.object_type_id

def ds_object_name2_index (r : DbRecord) : RResult (Option String) :=
  str_getter "ds_object_name2_index" r.object_name2

def ds_sidindex (r : DbRecord) : RResult (Option String) :=
  sid_getter "ds_sidindex" r.sid

def ds_last_logon_index (r : DbRecord) : RResult (Option Int) :=
  datetime_getter "ds_last_logon_index" r.last_logon

/-! ## Schema anchor resolution (`src/data_table_ext.rs:30-47`) -/

/-- Embeds `DataTableExt::get_schema_record_id`: walk the data table in order,
`find` the first record whose `object_name2` is `"Schema"` (the two
`expect`s inside the predicate panic on an unreadable or absent name),
`expect` panics if no record matches, then read the matching record's id
(`?` propagates the error, `expect` panics when the id cell is null). -/
def get_schema_record_id : List DbRecord → RResult Int
  | [] => .panic "no schema record found"
  | r :: rest =>
    match ds_object_name2_index r with
    | .error _ => .panic "unable to read object_name2 attribute"
    | .panic m => .panic m
    | .ok none => .panic "missing object_name2 attribute"
    | .ok (some nm) =>
      if nm = "Schema" then
        match ds_record_id_index r with
        | .error e => .error e
        | .panic m => .panic m
        | .ok none => .panic "Schema record has no record ID"
        | .ok (some id) => .ok id
      else get_schema_record_id rest

/-! ## Legacy type-record search and user listing (`src/data_table_ext.rs`) -/

/-- The legacy table wrapper: the rows plus the already-resolved schema
record id (`DataTableExt`, `src/data_table_ext.rs:12-16`). -/
structure DataTableExt where
  data_table : List DbRecord
  schema_record_id : Int
  deriving DecidableEq, Repr

/-- Loop body of the legacy `DataTableExt::find_type_records`
(`src/data_table_ext.rs:54-87`): keep records whose parent id (read with
two `unwrap`s) equals the schema record id, read their `object_name2`
(`?` then `expect`), collect the requested names, and break once the
requested set is exhausted. -/
def find_type_records_ext_loop :
    List DbRecord → Int → List String → List (String × DbRecord) →
    RResult (List (String × DbRecord))
  | [], _, _, acc => .ok acc
  | r :: rest, sid', names, acc =>
    match ds_parent_record_id_index r with
    | .error _ => .panic "called Result::unwrap on an Err value"
    | .panic m => .panic m
    | .ok none => .panic "called Option::unwrap on a None value"
    | .ok (some p) =>
      if p = sid' then
        match ds_object_name2_index r with
        | .error e => .error e
        | .panic m => .panic m
        | .ok none => .panic "missing object_name2 attribute"
        | .ok (some nm) =>
          if nm ∈ names then
            let acc' := acc ++ [(nm, r)]
            let names' := names.erase nm
            if names' = [] then .ok acc' else
              find_type_records_ext_loop rest sid' names' acc'
          else
            if names = [] then .ok acc else
              find_type_records_ext_loop rest sid' names acc
      else find_type_records_ext_loop rest sid' names acc

def find_type_records_ext (ext : DataTableExt) (names : List String) :
    RResult (List (String × DbRecord)) :=
  find_type_records_ext_loop ext.data_table ext.schema_record_id names []

/-- Legacy `DataTableExt::find_type_record` (`src/data_table_ext.rs:49-52`). -/
def find_type_record_ext (ext : DataTableExt) (name : String) :
    RResult (Option DbRecord) :=
  (find_type_records_ext ext [name]).map (fun m => m.lookup name)

/-- The record loop of `DataTableExt::show_users`
(`src/data_table_ext.rs:96-108`): keep records whose `object_type_id`
getter succeeds and returns exactly the type record's id, then project
each with `Person::from(..).unwrap()` (a failed projection panics). The
projection itself lives in `person.rs`, which is not part of the sources,
so it is a parameter. -/
def show_users_loop {P : Type} :
    List DbRecord → Option Int → (DbRecord → RResult P) → RResult (List P)
  | [], _, _ => .ok []
  | r :: rest, tid, pf =>
    match ds_object_type_id_index r with
    | .ok v =>
      if v = tid then
        match pf r with
        | .ok p => (show_users_loop rest tid pf).map (fun l => p :: l)
        | .error _ => .panic "called Result::unwrap on an Err value"
        | .panic m => .panic m
      else show_users_loop rest tid pf
    | _ => show_users_loop rest tid pf

/-- Embeds `.map(|dbrecord| Person::from(dbrecord, mapping).unwrap())` applied to
a record list: the projection of each record, where a failed projection
panics. -/
def map_unwrap {P : Type} (pf : DbRecord → RResult P) :
    List DbRecord → RResult (List P)
  | [] => .ok []
  | r :: rest =>
    match pf r with
    | .ok p => (map_unwrap pf rest).map (fun l => p :: l)
    | .error _ => .panic "called Result::unwrap on an Err value"
    | .panic m => .panic m

/-- Embeds `DataTableExt::show_users` (`src/data_table_ext.rs:89-112`): resolve
the `"Person"` type record (`expect` panics when it is missing), read its
record id with `?`, then run the filtered projection loop. -/
def show_users {P : Type} (ext : DataTableExt) (pf : DbRecord → RResult P) :
    RResult (List P) :=
  match find_type_record_ext ext "Person" with
  | .error e => .error e
  | .panic m => .panic m
  | .ok none => .panic "missing record for type 'Person'"
  | .ok (some tr) =>
    match ds_record_id_index tr with
    | .error e => .error e
    | .panic m => .panic m
    | .ok tid => show_users_loop ext.data_table tid pf

/-! ## Schema type enumeration (`src/ntds/data_table.rs`) -/

/-- The closed set of supported object types (`ObjectType` is declared in
a module that is not among the sources; modelled from the spec's
well-known supported type names: user/person, group, computer). -/
inductive ObjectType where
  | person
  | group
  | computer
  deriving DecidableEq, Repr

/-- Modelled from the spec: `ObjectType::try_from(&str)` recognises the
well-known supported type names and rejects everything else. -/
def object_type_from_str (s : String) : Option ObjectType :=
  if s = "Person" then some .person
  else if s = "Group" then some .group
  else if s = "Computer" then some .computer
  else none

/-- Modelled from the spec: the `Display` rendering of an `ObjectType`,
used by the `panic!("missing record for type '{object_type}'")` message. -/
def object_type_display : ObjectType → String
  | .person => "Person"
  | .group => "Group"
  | .computer => "Computer"

/-- Embeds `DataTableRecord::att_object_name2` (`src/ntds/data_table_record.rs`,
`record_attribute!`): the non-optional string read, which turns an absent
cell into `Error::ValueIsMissing` (the `FromValue` impl lives in a module
that is not among the sources; modelled from the spec's "absent (null)
cell decodes to absent except where a value is mandatory, in which case
the caller receives ValueIsMissing"). -/
def att_object_name2 (r : DbRecord) : RResult String :=
  match str_getter "att_object_name2" r.object_name2 with
  | .ok (some s) => .ok s
  | .ok none => .error .valueIsMissing
  | .error e => .error e
  | .panic m => .panic m

/-- Whether a schema child record defines the given object type: its
secondary name reads successfully and converts to that `ObjectType`. -/
def child_defines (ot : ObjectType) (c : DbRecord) : Bool :=
  match att_object_name2 c with
  | .ok nm => object_type_from_str nm = some ot
  | _ => false

/-- Loop of `DataTable::find_type_records` (`src/ntds/data_table.rs:65-95`):
walk the children of the schema record, read each `object_name2` with `?`,
collect the requested `ObjectType`s, break once the requested set is
empty. The commented-out `SchemaRecordHasNoChildren` guard of the source
is (faithfully) absent. -/
def find_type_records_loop :
    List DbRecord → List ObjectType → List (ObjectType × DbRecord) →
    RResult (List (ObjectType × DbRecord))
  | [], _, acc => .ok acc
  | r :: rest, tys, acc =>
    match att_object_name2 r with
    | .error e => .error e
    | .panic m => .panic m
    | .ok nm =>
      match object_type_from_str nm with
      | some ot =>
        if ot ∈ tys then
          let acc' := acc ++ [(ot, r)]
          let tys' := tys.erase ot
          if tys' = [] then .ok acc' else find_type_records_loop rest tys' acc'
        else
          if tys = [] then .ok acc else find_type_records_loop rest tys acc
      | none =>
        if tys = [] then .ok acc else find_type_records_loop rest tys acc

/-- Embeds `DataTable::find_type_records` over the children of the schema anchor. -/
def find_type_records (children : List DbRecord) (types : List ObjectType) :
    RResult (List (ObjectType × DbRecord)) :=
  find_type_records_loop children types []

/-- Embeds `DataTable::find_type_record` (`src/ntds/data_table.rs:57-63`). -/
def find_type_record (children : List DbRecord) (ot : ObjectType) :
    RResult (Option DbRecord) :=
  (find_type_records children [ot]).map (fun m => m.lookup ot)

/-- The type-record resolution step of `DataTable::show_typed_objects`
(`src/ntds/data_table.rs:237-239`): a missing type record is
`unwrap_or_else(|| panic!("missing record for type '{object_type}'"))`. -/
def show_typed_objects_resolve (children : List DbRecord) (ot : ObjectType) :
    RResult DbRecord :=
  match find_type_record children ot with
  | .error e => .error e
  | .panic m => .panic m
  | .ok none => .panic ("missing record for type '" ++ object_type_display ot ++ "'")
  | .ok (some r) => .ok r

/-- The record loop of `DataTable::show_typed_objects`
(`src/ntds/data_table.rs:256-279`): each fetched row (`record?`) and each
projection (`O::new(..)?`) propagates its error with `?`, ending the whole
loop; successfully projected records are emitted in order. -/
def show_typed_objects_loop {ρ π : Type} :
    List (RResult ρ) → (ρ → RResult π) → RResult (List π)
  | [], _ => .ok []
  | x :: rest, onew =>
    match x with
    | .error e => .error e
    | .panic m => .panic m
    | .ok r =>
      match onew r with
      | .error e => .error e
      | .panic m => .panic m
      | .ok p => (show_typed_objects_loop rest onew).map (fun l => p :: l)

/-! ## Deleted-object timeline union (`src/ntds/data_table.rs:377-391`) -/

/-- Embeds `cache::RecordPointer` (declared in a module that is not among the
sources; modelled from the spec: the unique address of one row, a pair of
a record id and an ESE row number). -/
structure RecordPointer where
  dnt_id : Int
  esedb_row : Int
  deriving DecidableEq, Repr

/-- Embeds `HashSet::from_iter` on an iterator of record pointers: the distinct
elements, in first-appearance order. -/
def hash_set_of (l : List RecordPointer) : List RecordPointer := l.dedup

/-- Embeds `HashSet::union`: the elements of the first set, then the elements of
the second set that the first does not contain. -/
def union_seq (a b : List RecordPointer) : List RecordPointer :=
  a ++ b.filter (fun r => !(decide (r ∈ a)))

/-- The deleted-object branch of `DataTable::show_timeline`
(`src/ntds/data_table.rs:377-391`): the children of the deleted-objects
container and the records carrying a deleted-from-container back-reference
are each collected into a `HashSet`, and their union is the sequence of
records handed to `show_timeline_for_records`. -/
def show_timeline_deleted (children_of_deleted entries_with_guid : List RecordPointer) :
    List RecordPointer :=
  union_seq (hash_set_of children_of_deleted) (hash_set_of entries_with_guid)

/-! ## Concrete rows used by the witnesses and counterexamples -/

/-- A row whose secondary name is not `"Schema"`. -/
def row_not_schema : DbRecord :=
  { record_id := .i32 10, parent_record_id := .i32 2,
    object_type_id := .null, object_name2 := .text "X",
    sid := .null, last_logon := .null }

/-- A schema-anchor row (secondary name `"Schema"`, record id 100). -/
def row_schema : DbRecord :=
  { record_id := .i32 100, parent_record_id := .i32 2,
    object_type_id := .null, object_name2 := .text "Schema",
    sid := .null, last_logon := .null }

/-- A child of the schema anchor defining an unsupported type. -/
def row_other_type : DbRecord :=
  { record_id := .i32 105, parent_record_id := .i32 100,
    object_type_id := .null, object_name2 := .text "Foo",
    sid := .null, last_logon := .null }

/-- The child of the schema anchor defining the `Person` type (id 101). -/
def row_person_type : DbRecord :=
  { record_id := .i32 101, parent_record_id := .i32 100,
    object_type_id := .null, object_name2 := .text "Person",
    sid := .null, last_logon := .null }

/-- A user row: its object type id is the `Person` type record's id. -/
def row_user : DbRecord :=
  { record_id := .i32 200, parent_record_id := .i32 50,
    object_type_id := .i32 101, object_name2 := .text "alice",
    sid := .null, last_logon := .currency 0 }

/-- A row of some other object type. -/
def row_non_user : DbRecord :=
  { record_id := .i32 201, parent_record_id := .i32 50,
    object_type_id := .i32 999, object_name2 := .text "printer",
    sid := .null, last_logon := .null }

/-- The legacy table wrapper over the example rows. -/
def example_ext : DataTableExt :=
  { data_table := [row_person_type, row_user, row_non_user],
    schema_record_id := 100 }

/-- Two record pointers for the timeline union. -/
def ptr_a : RecordPointer := { dnt_id := 300, esedb_row := 7 }

/-- A pointer that is both a child of the deleted-objects container and
back-referenced to it. -/
def ptr_b : RecordPointer := { dnt_id := 301, esedb_row := 8 }

/-! ## Helper lemmas about the byte cursor -/

theorem readN_append (pre rest : List Nat) :
    readN pre.length (pre ++ rest) = some (pre, rest) := by
  induction pre with
  | nil => simp [readN]
  | cons b tl ih => simp [readN, ih]

theorem readN_of_le (k : Nat) (l : List Nat) (h : k ≤ l.length) :
    readN k l = some (l.take k, l.drop k) := by
  have h' := readN_append (l.take k) (l.drop k)
  rwa [List.take_append_drop, List.length_take, Nat.min_eq_left h] at h'

theorem read_subauths_le_spec (groups : List (List Nat)) (rest : List Nat)
    (h : ∀ g ∈ groups, g.length = 4) :
    read_subauths_le groups.length (groups.join ++ rest)
      = some (groups.map le_val, rest) := by
  induction groups with
  | nil => simp [read_subauths_le]
  | cons g gs ih =>
    have hg : g.length = 4 := h g (by simp)
    have hgs : ∀ x ∈ gs, x.length = 4 := fun x hx => h x (by simp [hx])
    have h4 : read_u32_le (g ++ (gs.join ++ rest)) = some (le_val g, gs.join ++ rest) := by
      unfold read_u32_le
      rw [show (4 : Nat) = g.length from hg.symm, readN_append]
      rfl
    simp [read_subauths_le, List.append_assoc, h4, ih hgs]

/-! ## Claims about the SID decoder -/

/-- C1, amended: for a binary SID cell laid out as revision byte, count
byte `N = |gs| + 1 ≥ 1`, 48-bit big-endian authority, and `N` four-byte
sub-authorities, the decoder returns
`S-<revision>-<authority>-<subs>` where the first `N - 1` sub-authorities
are decoded little-endian and the final sub-authority big-endian (not all
with the uniform on-disk little-endian byte order the claim states). -/
theorem sid_getter_mixed_endian (field : String) (revision n : Nat)
    (auth : List Nat) (gs : List (List Nat)) (glast : List Nat)
    (hrev : revision < 256) (hn : n = gs.length + 1) (hn256 : n < 256)
    (hauth : auth.length = 6)
    (hgs : ∀ g ∈ gs, g.length = 4) (hlast : glast.length = 4) :
    sid_getter field (Value.binary (revision :: n :: (auth ++ (gs ++ [glast]).join)))
      = RResult.ok (some (sid_format revision (be_val auth)
          (gs.map le_val ++ [be_val glast]))) := by
  subst hn
  have h48 : read_u48_be (auth ++ (gs.join ++ glast))
      = some (be_val auth, gs.join ++ glast) := by
    unfold read_u48_be
    rw [show (6 : Nat) = auth.length from hauth.symm, readN_append]
    rfl
  have hsub : read_subauths_le gs.length (gs.join ++ glast)
      = some (gs.map le_val, glast) := read_subauths_le_spec gs glast hgs
  have h32 : read_u32_be glast = some (be_val glast, []) := by
    have h' := readN_append glast []
    rw [List.append_nil] at h'
    unfold read_u32_be
    rw [show (4 : Nat) = glast.length from hlast.symm, h']
    rfl
  simp [sid_getter, sid_decode, read_u8, h48, hsub, h32, u8_sub, RResult.map]

/-- C1 witness: a two-sub-authority SID decodes per the amended claim. -/
theorem sid_getter_mixed_endian_witness :
    sid_getter "ds_sidindex"
        (Value.binary (1 :: 2 :: ([0, 0, 0, 0, 0, 5] ++ ([[21, 0, 0, 0]] ++ [[0, 0, 2, 1]]).join)))
      = RResult.ok (some (sid_format 1 (be_val [0, 0, 0, 0, 0, 5])
          (List.map le_val [[21, 0, 0, 0]] ++ [be_val [0, 0, 2, 1]]))) :=
  sid_getter_mixed_endian "ds_sidindex" 1 2 [0, 0, 0, 0, 0, 5] [[21, 0, 0, 0]] [0, 0, 2, 1]
    (by decide) (by decide) (by decide) (by decide) (by decide) (by decide)

/-- C1 counterexample: for the single-sub-authority SID blob
`[1, 1, 0,0,0,0,0,5, 1,0,0,0]` the decoder reads the (final) sub-authority
big-endian and returns `S-1-5-16777216`, whereas decoding it with the
on-disk little-endian byte order, as the claim states, would give
`S-1-5-1`. -/
theorem sid_getter_last_subauthority_big_endian_cex :
    sid_getter "ds_sidindex" (Value.binary [1, 1, 0, 0, 0, 0, 0, 5, 1, 0, 0, 0])
      = RResult.ok (some "S-1-5-16777216")
    ∧ sid_format 1 5 (List.map le_val [[1, 0, 0, 0]]) = "S-1-5-1"
    ∧ sid_getter "ds_sidindex" (Value.binary [1, 1, 0, 0, 0, 0, 0, 5, 1, 0, 0, 0])
        ≠ RResult.ok (some (sid_format 1 5 (List.map le_val [[1, 0, 0, 0]]))) := by
  refine ⟨by decide, by decide, by decide⟩

/-- C9: a binary SID cell of at least 8 bytes whose sub-authority count
byte is 0 drives `number_of_dashes - 1` into a u8 underflow: the decoder
panics (checked-arithmetic semantics) and returns neither a decoded string
nor a typed decode error. -/
theorem sid_getter_zero_count_panics (field : String) (bytes : List Nat)
    (hlen : 8 ≤ bytes.length) (hzero : bytes.get? 1 = some 0) :
    sid_getter field (Value.binary bytes)
      = RResult.panic "attempt to subtract with overflow" := by
  cases bytes with
  | nil => simp at hlen
  | cons b0 t =>
    cases t with
    | nil => simp at hlen
    | cons b1 rest =>
      have hb1 : b1 = 0 := by simpa using hzero
      subst hb1
      have hr : 6 ≤ rest.length := by
        simp only [List.length_cons] at hlen
        omega
      have h48 : read_u48_be rest = some (be_val (rest.take 6), rest.drop 6) := by
        unfold read_u48_be
        rw [readN_of_le 6 rest hr]
        rfl
      simp [sid_getter, sid_decode, read_u8, h48, u8_sub, RResult.map]

/-- C9 witness: the concrete zero-count blob `[1, 0, 0,0,0,0,0,5]` panics. -/
theorem sid_getter_zero_count_panics_witness :
    sid_getter "ds_sidindex" (Value.binary [1, 0, 0, 0, 0, 0, 0, 5])
      = RResult.panic "attempt to subtract with overflow" :=
  sid_getter_zero_count_panics "ds_sidindex" [1, 0, 0, 0, 0, 0, 0, 5]
    (by decide) (by decide)

/-! ## Claims about the timestamp decoder -/

/-- C5: a `Currency` cell holding tick count 0 decodes to exactly
1601-01-01T00:00:00Z (the decoded instant is `dt_base`, whose calendar
reading is 1601-01-01, midnight), and a null cell decodes to `none`,
never to the epoch. -/
theorem datetime_getter_epoch_and_null (field : String) :
    datetime_getter field (Value.currency 0) = RResult.ok (some dt_base)
    ∧ civil_from_micros dt_base
        = { year := 1601, month := 1, day := 1,
            hour := 0, minute := 0, second := 0, micro := 0 }
    ∧ datetime_getter field Value.null = RResult.ok none := by
  refine ⟨?_, by decide, rfl⟩
  simp only [datetime_getter]
  decide

/-- C5 witness: the two decodes at the field the source names
`ds_last_logon_index`. -/
theorem datetime_getter_epoch_and_null_witness :
    datetime_getter "ds_last_logon_index" (Value.currency 0) = RResult.ok (some dt_base)
    ∧ civil_from_micros dt_base
        = { year := 1601, month := 1, day := 1,
            hour := 0, minute := 0, second := 0, micro := 0 }
    ∧ datetime_getter "ds_last_logon_index" Value.null = RResult.ok none :=
  datetime_getter_epoch_and_null "ds_last_logon_index"

/-- C10 counterexample: the tick counts -10 and -1 have equal floored
quotients by 10, yet decode to different instants (Rust `/` truncates
toward zero, so -1 maps to the epoch and -10 to one microsecond before
it); the claim's floor-based equivalence fails on the code. -/
theorem datetime_getter_floor_pair_cex :
    Int.fdiv (-10) 10 = Int.fdiv (-1) 10
    ∧ datetime_getter "ds_last_logon_index" (Value.currency (-10))
        ≠ datetime_getter "ds_last_logon_index" (Value.currency (-1)) := by
  exact ⟨by decide, by decide⟩

/-- C10, amended: the decoder truncates the tick count toward zero
(`epoch + (ticks ~tdiv 10) microseconds`); every pair of 64-bit tick
counts with the same truncated quotient by 10 decodes to the same
instant, so sub-microsecond precision is discarded (for nonnegative
ticks truncation and floor agree). -/
theorem datetime_getter_trunc_div_equal (field : String) (v1 v2 : Int)
    (h1 : -(2 ^ 63) ≤ v1) (h2 : v1 < 2 ^ 63)
    (h3 : -(2 ^ 63) ≤ v2) (h4 : v2 < 2 ^ 63)
    (h : Int.tdiv v1 10 = Int.tdiv v2 10) :
    datetime_getter field (Value.currency v1)
      = datetime_getter field (Value.currency v2) := by
  simp only [datetime_getter, h]

/-- C10 witness: tick counts 15 and 19 share the truncated quotient 1 and
decode identically. -/
theorem datetime_getter_trunc_div_equal_witness :
    datetime_getter "ds_last_logon_index" (Value.currency 15)
      = datetime_getter "ds_last_logon_index" (Value.currency 19) :=
  datetime_getter_trunc_div_equal "ds_last_logon_index" 15 19
    (by decide) (by decide) (by decide) (by decide) (by decide)

/-! ## Claims about schema-anchor resolution -/

/-- C2 counterexample: on a table with no record named `"Schema"`, the
resolver panics with the `expect` message "no schema record found"
instead of failing with the typed error `MissingSchemaRecord`. -/
theorem get_schema_record_id_panics_cex :
    (∀ r ∈ [row_not_schema], ds_object_name2_index r ≠ RResult.ok (some "Schema"))
    ∧ get_schema_record_id [row_not_schema] = RResult.panic "no schema record found"
    ∧ get_schema_record_id [row_not_schema] ≠ RResult.error NtdsError.missingSchemaRecord := by
  refine ⟨by decide, by decide, by decide⟩

/-- C2, amended: on a table whose records all have a readable, present
secondary name, resolution selects the first record whose secondary name
is `"Schema"` (first match wins) and returns its record id; if no record
matches, it fails by panicking with "no schema record found" (an
`expect`), not with the typed error `MissingSchemaRecord`. -/
theorem get_schema_record_id_first_match_or_panic (table : List DbRecord)
    (hread : ∀ r ∈ table, is_ok_some (ds_object_name2_index r) = true) :
    (table.find? (fun r => decide (ds_object_name2_index r = RResult.ok (some "Schema"))) = none →
      get_schema_record_id table = RResult.panic "no schema record found")
    ∧ (∀ r, table.find? (fun r => decide (ds_object_name2_index r = RResult.ok (some "Schema"))) = some r →
        ∀ id, ds_record_id_index r = RResult.ok (some id) →
          get_schema_record_id table = RResult.ok id) := by
  induction table with
  | nil =>
    refine ⟨fun _ => rfl, ?_⟩
    intro r hr
    simp [List.find?] at hr
  | cons a tl ih =>
    obtain ⟨nm, hnm⟩ : ∃ nm, ds_object_name2_index a = RResult.ok (some nm) := by
      have ha := hread a (by simp)
      cases h' : ds_object_name2_index a with
      | ok v =>
        cases v with
        | some s => exact ⟨s, rfl⟩
        | none => rw [h'] at ha; simp [is_ok_some] at ha
      | error e => rw [h'] at ha; simp [is_ok_some] at ha
      | panic m => rw [h'] at ha; simp [is_ok_some] at ha
    have ihtl := ih (fun r hr => hread r (by simp [hr]))
    by_cases hs : nm = "Schema"
    · subst hs
      constructor
      · intro hfind
        rw [List.find?_cons_of_pos _ (by simp [hnm])] at hfind
        exact absurd hfind (by simp)
      · intro r hr id hid
        rw [List.find?_cons_of_pos _ (by simp [hnm])] at hr
        have har : a = r := by simpa using hr
        subst har
        simp [get_schema_record_id, hnm, hid]
    · constructor
      · intro hfind
        have hfind' :
            List.find? (fun r => decide (ds_object_name2_index r = RResult.ok (some "Schema"))) tl
              = none := by
          simpa [List.find?_cons, hnm, hs] using hfind
        simpa [get_schema_record_id, hnm, hs] using ihtl.1 hfind'
      · intro r hr id hid
        have hr' :
            List.find? (fun r => decide (ds_object_name2_index r = RResult.ok (some "Schema"))) tl
              = some r := by
          simpa [List.find?_cons, hnm, hs] using hr
        simpa [get_schema_record_id, hnm, hs] using ihtl.2 r hr' id hid

/-- C2 witness: on a table where the second record is the anchor, the
resolver returns that record's id, 100. -/
theorem get_schema_record_id_first_match_or_panic_witness :
    get_schema_record_id [row_not_schema, row_schema] = RResult.ok 100 :=
  (get_schema_record_id_first_match_or_panic [row_not_schema, row_schema]
      (by decide)).2 row_schema (by decide) 100 (by decide)

/-! ## Claims about type-record resolution and bulk listings -/

/-- C3 counterexample: on a file whose schema anchor has no children at
all, `find_type_records` for `Person` silently succeeds with an empty
(partial) type map, and the listing path then panics with "missing record
for type 'Person'"; no typed error (`SchemaRecordHasNoChildren` or a
missing-type error) is produced. -/
theorem find_type_records_missing_type_cex :
    find_type_records [] [ObjectType.person] = RResult.ok []
    ∧ show_typed_objects_resolve [] ObjectType.person
        = RResult.panic "missing record for type 'Person'"
    ∧ show_typed_objects_resolve [] ObjectType.person
        ≠ RResult.error NtdsError.schemaRecordHasNoChildren := by
  refine ⟨rfl, rfl, by decide⟩

/-- C3, amended: when no child of the schema anchor defines the requested
supported type (and every child's secondary name is readable),
`find_type_records` silently returns an empty partial map — the
`SchemaRecordHasNoChildren` guard is commented out in the source — and
the typed-listing path panics with "missing record for type '…'" instead
of returning a typed error. -/
theorem find_type_records_partial_silent (children : List DbRecord) (ot : ObjectType)
    (hread : ∀ c ∈ children, (att_object_name2 c).isOk = true)
    (hmiss : ∀ c ∈ children, child_defines ot c = false) :
    find_type_records children [ot] = RResult.ok []
    ∧ show_typed_objects_resolve children ot
        = RResult.panic ("missing record for type '" ++ object_type_display ot ++ "'") := by
  have hloop : ∀ cs : List DbRecord,
      (∀ c ∈ cs, (att_object_name2 c).isOk = true) →
      (∀ c ∈ cs, child_defines ot c = false) →
      find_type_records_loop cs [ot] [] = RResult.ok [] := by
    intro cs
    induction cs with
    | nil => intro _ _; rfl
    | cons c rest ih =>
      intro hr hm
      obtain ⟨nm, hnm⟩ : ∃ nm, att_object_name2 c = RResult.ok nm := by
        have hc := hr c (by simp)
        cases h' : att_object_name2 c with
        | ok s => exact ⟨s, rfl⟩
        | error e => rw [h'] at hc; simp [RResult.isOk] at hc
        | panic m => rw [h'] at hc; simp [RResult.isOk] at hc
      have hnot : object_type_from_str nm ≠ some ot := by
        have hc := hm c (by simp)
        rw [child_defines, hnm] at hc
        simpa using hc
      have ihr := ih (fun x hx => hr x (by simp [hx])) (fun x hx => hm x (by simp [hx]))
      cases ho : object_type_from_str nm with
      | none => simp [find_type_records_loop, hnm, ho, ihr]
      | some ot' =>
        have hne : ot' ≠ ot := fun he => hnot (by rw [ho, he])
        simp [find_type_records_loop, hnm, ho, hne, ihr]
  have hmain := hloop children hread hmiss
  refine ⟨hmain, ?_⟩
  simp [show_typed_objects_resolve, find_type_record, find_type_records, hmain,
    RResult.map, List.lookup]

/-- C3 witness: a schema with one child defining only the unsupported
type `Foo` silently yields the empty map and the panic. -/
theorem find_type_records_partial_silent_witness :
    find_type_records [row_other_type] [ObjectType.person] = RResult.ok []
    ∧ show_typed_objects_resolve [row_other_type] ObjectType.person
        = RResult.panic ("missing record for type '"
            ++ object_type_display ObjectType.person ++ "'") :=
  find_type_records_partial_silent [row_other_type] ObjectType.person
    (by decide) (by decide)

/-- C4 counterexample: a bulk listing over two fetched records, the second
of which fails to decode, aborts with that error (the `?` propagates it)
instead of skipping the failing record and completing with the remaining
one, as the claim states. -/
theorem show_typed_objects_loop_abort_cex :
    show_typed_objects_loop [RResult.ok row_user, RResult.error NtdsError.valueIsMissing]
        (RResult.ok : DbRecord → RResult DbRecord)
      = RResult.error NtdsError.valueIsMissing
    ∧ show_typed_objects_loop [RResult.ok row_user, RResult.error NtdsError.valueIsMissing]
        (RResult.ok : DbRecord → RResult DbRecord)
      ≠ RResult.ok [row_user] := by
  refine ⟨rfl, by decide⟩

/-- C4, amended: a decode failure on one record aborts the whole bulk
operation: `show_typed_objects` propagates the first per-record error via
`?` and returns it, processing no later record (and the legacy
`show_users` panics on a failed `Person::from(..).unwrap()`); failing
records are not skipped. -/
theorem show_typed_objects_loop_aborts_on_error {ρ π : Type} (pre : List ρ)
    (e : NtdsError) (post : List (RResult ρ)) (onew : ρ → RResult π)
    (h : ∀ r ∈ pre, (onew r).isOk = true) :
    show_typed_objects_loop (pre.map RResult.ok ++ RResult.error e :: post) onew
      = RResult.error e := by
  induction pre with
  | nil => rfl
  | cons r rest ih =>
    obtain ⟨p, hp⟩ : ∃ p, onew r = RResult.ok p := by
      have hr := h r (by simp)
      cases h' : onew r with
      | ok p => exact ⟨p, rfl⟩
      | error e' => rw [h'] at hr; simp [RResult.isOk] at hr
      | panic m => rw [h'] at hr; simp [RResult.isOk] at hr
    have ihr := ih (fun x hx => h x (by simp [hx]))
    simp [show_typed_objects_loop, hp, ihr, RResult.map]

/-- C4 witness: a successfully decoded record followed by a failing fetch
makes the loop return the error. -/
theorem show_typed_objects_loop_aborts_on_error_witness :
    show_typed_objects_loop
        (List.map RResult.ok [row_user] ++ RResult.error NtdsError.valueIsMissing :: [])
        (RResult.ok : DbRecord → RResult DbRecord)
      = RResult.error NtdsError.valueIsMissing :=
  show_typed_objects_loop_aborts_on_error [row_user] NtdsError.valueIsMissing []
    RResult.ok (by decide)

/-- C7: once the `Person` type record is resolved with record id `tid`,
`show_users` emits exactly the projections of the data-table records whose
`object_type_id` getter succeeds with exactly `some tid` — every matching
record is projected and emitted, and records with a different or absent
object-type id (or an unreadable one) are filtered out. -/
theorem show_users_emits_exactly_matching {P : Type} (ext : DataTableExt)
    (pf : DbRecord → RResult P) (tr : DbRecord) (tid : Int)
    (h1 : find_type_record_ext ext "Person" = RResult.ok (some tr))
    (h2 : ds_record_id_index tr = RResult.ok (some tid)) :
    show_users ext pf
      = map_unwrap pf (ext.data_table.filter
          (fun r => decide (ds_object_type_id_index r = RResult.ok (some tid)))) := by
  have hloop : ∀ table : List DbRecord,
      show_users_loop table (some tid) pf
        = map_unwrap pf (table.filter
            (fun r => decide (ds_object_type_id_index r = RResult.ok (some tid)))) := by
    intro table
    induction table with
    | nil => rfl
    | cons r rest ih =>
      cases hty : ds_object_type_id_index r with
      | ok v =>
        by_cases hv : v = some tid
        · subst hv
          cases hpf : pf r with
          | ok p => simp [show_users_loop, List.filter_cons, hty, hpf, map_unwrap, ih]
          | error e => simp [show_users_loop, List.filter_cons, hty, hpf, map_unwrap]
          | panic m => simp [show_users_loop, List.filter_cons, hty, hpf, map_unwrap]
        · simp [show_users_loop, List.filter_cons, hty, hv, ih]
      | error e => simp [show_users_loop, List.filter_cons, hty, ih]
      | panic m => simp [show_users_loop, List.filter_cons, hty, ih]
  simp [show_users, h1, h2, hloop]

/-- C7 witness: on the example table the listing emits exactly the single
record whose object-type id is the `Person` type record's id, 101. -/
theorem show_users_emits_exactly_matching_witness :
    show_users example_ext (RResult.ok : DbRecord → RResult DbRecord)
      = map_unwrap RResult.ok (example_ext.data_table.filter
          (fun r => decide (ds_object_type_id_index r = RResult.ok (some 101)))) :=
  show_users_emits_exactly_matching example_ext RResult.ok row_person_type 101
    (by decide) (by decide)

/-! ## Claim about the deleted-object timeline union -/

/-- C8: a record pointer that is both among the children of the
deleted-objects container and among the records back-referenced to it
occurs exactly once in the sequence the deleted-inclusive timeline
processes: the two collections are deduplicated into sets and their union
removes the overlap. -/
theorem show_timeline_deleted_once (a b : List RecordPointer) (r : RecordPointer)
    (ha : r ∈ a) (hb : r ∈ b) :
    (show_timeline_deleted a b).count r = 1 := by
  unfold show_timeline_deleted union_seq
  rw [List.count_append]
  have hra : r ∈ hash_set_of a := by
    simpa [hash_set_of] using List.mem_dedup.mpr ha
  have h1 : (hash_set_of a).count r = 1 :=
    List.count_eq_one_of_mem (by simpa [hash_set_of] using List.nodup_dedup a) hra
  have h2 : ((hash_set_of b).filter (fun x => !(decide (x ∈ hash_set_of a)))).count r = 0 := by
    rw [List.count_eq_zero]
    intro hmem
    have hflt := List.of_mem_filter hmem
    simp [hra] at hflt
  rw [h1, h2]

/-- C8 witness: a pointer present in both collections is exported once. -/
theorem show_timeline_deleted_once_witness :
    (show_timeline_deleted [ptr_a, ptr_b] [ptr_b]).count ptr_b = 1 :=
  show_timeline_deleted_once [ptr_a, ptr_b] [ptr_b] ptr_b (by decide) (by decide)
